import Mathlib

/-!
Shallow embedding of `gen.py` (3D-Text-Generator).

The script drives Blender's `bpy` API: it parses command-line arguments,
checks font support via fontTools, creates a text object, converts it to a
mesh, centers it and exports it.  External effects (Blender operators,
`os.makedirs`, prints) are modelled as an explicit event trace; operator
outcomes that depend on the outside world are oracle fields of an
environment record.  Machine reals (`extrude`, `bevel`) are modelled as the
exact rationals the decimal literals denote — the script never computes
with them, it only passes them through.
-/

set_option autoImplicit false

namespace TextGen

/-- Python exceptions that can arise in the modelled fragment. -/
inductive PyExn where
  | attributeError
  | nameError
  | fileNotFoundError
  | systemExit
  deriving DecidableEq, Repr

/-- A Python character together with the Unicode metadata the script queries:
`ord(c)`, `c.isspace()`, `unicodedata.name(c, 'UNKNOWN')` and
`unicodedata.category(c)`. -/
structure PyChar where
  code : ℕ
  isspace : Bool
  uname : String
  category : String
  deriving DecidableEq, Repr

/-- One entry of the `unsupported_chars` list built by `check_font_support`. -/
structure CharInfo where
  char : PyChar
  uname : String
  category : String
  script : String
  deriving DecidableEq, Repr

/-- The loop body of `check_font_support`: scan the text, collecting every
character whose code point is missing from the cmap and which is not
whitespace; for each such character the script queries `unicodedata.name`
(with a default, so it cannot raise), `unicodedata.category`, and
`unicodedata.script` — the last call is passed in as `scriptFn` because its
outcome is what decides whether the loop completes. -/
def scanChars (scriptFn : PyChar → Except PyExn String) (cmap : List ℕ) :
    List PyChar → Except PyExn (List CharInfo)
  | [] => .ok []
  | c :: rest =>
    if c.code ∈ cmap ∨ c.isspace then
      scanChars scriptFn cmap rest
    else
      match scriptFn c with
      | .error e => .error e
      | .ok scr =>
        match scanChars scriptFn cmap rest with
        | .error e => .error e
        | .ok infos =>
          .ok ({ char := c, uname := c.uname, category := c.category, script := scr } :: infos)

/-- The actual behaviour of `unicodedata.script` under `import unicodedata`:
the CPython standard-library `unicodedata` module has no attribute `script`
(that function exists only in `fontTools.unicodedata`, which the script does
not import), so the attribute access raises `AttributeError` for every
character. -/
def stdlib_script (_c : PyChar) : Except PyExn String := .error .attributeError

/-- Events emitted by the script: prints and calls into `os` / `bpy`. -/
inductive Event where
  | print (s : String)
  | printFontNotFound (path : String)
  | printFontCheckFailed
  | printFontWarningHeader
  | printCharWarning (info : CharInfo)
  | printFontWarningFooter
  | makedirsCall (dir : String)
  | selectAll (action : String)
  | deleteOp
  | textAdd
  | setBody (t : String)
  | loadFontOp (path : String)
  | setFont
  | setExtrude (d : ℚ)
  | setBevelDepth (d : ℚ)
  | setBevelResolution (n : ℤ)
  | setActive
  | convertOp (target : String)
  | shadeSmooth
  | modifierAdd (ty : String)
  | selectObj (o : ℚ × ℚ × ℚ)
  | objExport (path : String) (selectedOnly : Bool) (materials : Bool)
  | saveMainfile (path : String)
  | originSet (ty : String)
  | setLocation (x y z : ℚ)
  deriving DecidableEq, Repr

/-- Model of `check_font_support(font_path, text)`.  `loadFont` models
`TTFont(font_path)` followed by `getBestCmap()` (the set of code points the
font maps); the whole body runs inside `try/except Exception`, whose handler
prints a warning and returns `(True, [])`.  The second component of the
result is the trace of prints the call performs. -/
def check_font_support (scriptFn : PyChar → Except PyExn String)
    (loadFont : Except PyExn (List ℕ)) (text : List PyChar) :
    (Bool × List CharInfo) × List Event :=
  match loadFont with
  | .error _ => ((true, []), [.printFontCheckFailed])
  | .ok cmap =>
    match scanChars scriptFn cmap text with
    | .error _ => ((true, []), [.printFontCheckFailed])
    | .ok infos => ((infos.length == 0, infos), [])

/-! ## Path helpers (`os.path` on Windows, i.e. `ntpath`)

The script's default font path uses backslashes, so paths are modelled with
`ntpath` semantics: separators `'\\'` and `'/'`.  Drive-letter handling is
not modelled (no claim depends on it).  `str.lower` is modelled per
character with `Char.toLower`, which lowercases the ASCII range — enough to
decide membership in `{".obj", ".blend"}`. -/

/-- Python `s.rfind(c)`: index of the last occurrence of `c`, `-1` if absent. -/
def rfind (s : List Char) (c : Char) : ℤ :=
  match (List.range s.length).reverse.find? (fun i => s.get? i == some c) with
  | some i => (i : ℤ)
  | none => -1

/-- Model of `os.path.splitext` (`genericpath._splitext` with `sep='\\'`,
`altsep='/'`, `extsep='.'`): split at the last dot of the final component
unless every character between the last separator and that dot is a dot
(leading dots of the filename never start an extension). -/
def splitext (p : String) : String × String :=
  let l := p.data
  let sepIndex := max (rfind l '\\') (rfind l '/')
  let dotIndex := rfind l '.'
  if dotIndex > sepIndex then
    if (List.range l.length).any
        (fun i => decide (sepIndex < (i : ℤ)) && decide ((i : ℤ) < dotIndex)
          && (l.get? i != some '.')) then
      (⟨l.take dotIndex.toNat⟩, ⟨l.drop dotIndex.toNat⟩)
    else
      (p, "")
  else
    (p, "")

/-- Model of `str.lower`, per character (ASCII range; sufficient for the extension
comparison the script performs). -/
def pyLower (s : String) : String := ⟨s.data.map Char.toLower⟩

/-- Model of `os.path.dirname` (`ntpath`, drive-less paths): everything before the
last separator, with trailing separators stripped unless the head consists
only of separators; empty when the path has no separator. -/
def dirname (p : String) : String :=
  let l := p.data
  let i := max (rfind l '\\') (rfind l '/')
  if i < 0 then ""
  else
    let head := l.take (i.toNat + 1)
    let stripped := (head.reverse.dropWhile (fun c => c == '\\' || c == '/')).reverse
    if stripped.isEmpty then ⟨head⟩ else ⟨stripped⟩

/-- Model of `os.path.join(a, b)` (`ntpath`, drive-less paths): an absolute second
component replaces the first, otherwise the parts are joined with a
backslash unless `a` is empty or already ends in a separator. -/
def pyJoin (a b : String) : String :=
  if b.data.head? = some '\\' ∨ b.data.head? = some '/' then b
  else if a = "" then b
  else if a.data.getLast? = some '\\' ∨ a.data.getLast? = some '/' then a ++ b
  else a ++ "\\" ++ b

/-- Model of `os.makedirs(dir, exist_ok=True)`: raises `FileNotFoundError` on the
empty path (`mkdir('')` fails with `ENOENT`, and since `isdir('')` is false
the `exist_ok` handler re-raises); modelled as succeeding on every non-empty
path (other filesystem failures are outside the model). -/
def makedirs (dir : String) : Except PyExn Unit :=
  if dir = "" then .error .fileNotFoundError else .ok ()

/-! ## `export_mesh` -/

/-- Oracle outcomes for the two export operators and the text of
`traceback.format_exc()`. -/
structure ExportEnv where
  objExportResult : Except String Unit
  saveMainResult : Except String Unit
  traceback : String
  deriving Repr

/-- The object the script manipulates; only its location is observable in
the modelled fragment. -/
structure TextObj where
  location : ℚ × ℚ × ℚ
  deriving DecidableEq, Repr

/-- Model of `export_mesh(obj, output_path=None)`.  Returns the Python return value
(`Except` is `.error` when the call raises) together with the trace of
effects.  With `output_path=None` the default-path branch evaluates the
unbound name `original_text`, raising `NameError`.  Otherwise: compute the
lowercased extension, default an empty extension to `.obj` (appending it to
the path), reject extensions other than `.obj`/`.blend` with two prints and
`False`, call `os.makedirs` on the directory part (outside the `try`, so its
exception propagates), select the object, and run the operator chosen by
the extension inside `try/except`, returning `True` on success and `False`
(after printing the error and the traceback) when the operator raises. -/
def export_mesh (ee : ExportEnv) (obj : TextObj) (output_path? : Option String) :
    Except PyExn Bool × List Event :=
  match output_path? with
  | none => (.error .nameError, [])
  | some path₀ =>
    let ext₀ := pyLower (splitext path₀).2
    let file_ext := if ext₀ = "" then ".obj" else ext₀
    let output_path := if ext₀ = "" then path₀ ++ ".obj" else path₀
    if file_ext ∉ [".obj", ".blend"] then
      (.ok false, [.print ("Error: Unsupported file format " ++ file_ext),
                   .print "Supported formats: .obj, .blend"])
    else
      let dir := dirname output_path
      match makedirs dir with
      | .error e => (.error e, [.makedirsCall dir])
      | .ok _ =>
        let pre : List Event :=
          [.makedirsCall dir, .selectAll "DESELECT", .selectObj obj.location, .setActive]
        if file_ext = ".obj" then
          match ee.objExportResult with
          | .ok _ =>
            (.ok true, pre ++ [.objExport output_path true false,
                               .print ("Exported to: " ++ output_path)])
          | .error m =>
            (.ok false, pre ++ [.objExport output_path true false,
                                .print ("Export failed: " ++ m), .print ee.traceback])
        else
          match ee.saveMainResult with
          | .ok _ =>
            (.ok true, pre ++ [.saveMainfile output_path,
                               .print ("Exported to: " ++ output_path)])
          | .error m =>
            (.ok false, pre ++ [.saveMainfile output_path,
                                .print ("Export failed: " ++ m), .print ee.traceback])

/-- The effective extension `export_mesh` dispatches on: the lowercased
extension of the argument, with the empty extension defaulted to `.obj`. -/
def effExt (p : String) : String :=
  let e := pyLower (splitext p).2
  if e = "" then ".obj" else e

/-- The effective output path: `.obj` is appended when the argument had no
extension. -/
def effPath (p : String) : String :=
  if pyLower (splitext p).2 = "" then p ++ ".obj" else p

/-! ## `parse_args`

The six options of the `argparse` parser.  Numeric values are modelled as
the exact rationals/integers the decimal tokens denote (the script only
forwards them).  The model covers `--key value` and `--key=value` forms and
rejects unknown options, options missing their value, and unparsable
numbers, as `argparse` does (by raising `SystemExit`); `argparse`'s
unambiguous-prefix abbreviation of option names is not modelled. -/

structure Args where
  text : String
  font : String
  depth : ℚ
  resolution : ℤ
  bevel : ℚ
  output : Option String
  deriving DecidableEq, Repr

/-- The defaults declared by the `add_argument` calls (`0.2` and `0.01`
denote the decimals `1/5` and `1/100`). -/
def defaultArgs : Args :=
  { text := "hello", font := ".\\fonts\\hp.ttf", depth := 1/5, resolution := 32,
    bevel := 1/100, output := none }

def isDigitList (l : List Char) : Bool := l.all Char.isDigit

def natOfDigits (l : List Char) : ℕ := l.foldl (fun acc c => 10 * acc + (c.toNat - 48)) 0

/-- Modelled Python `int(token)`: an optional minus sign followed by digits
(whitespace, underscores and a leading plus are not used here). -/
def parseIntStr (s : String) : Option ℤ :=
  match s.data with
  | [] => none
  | '-' :: ds => if ds ≠ [] ∧ isDigitList ds then some (-(natOfDigits ds : ℤ)) else none
  | ds => if isDigitList ds then some ((natOfDigits ds : ℤ)) else none

/-- Core of modelled Python `float(token)` on an unsigned token: digits with
an optional single decimal point; the value is the exact rational the
literal denotes. -/
def parseDecimalCore (l : List Char) : Option ℚ :=
  match l.findIdx? (fun c => c == '.') with
  | none => if l ≠ [] ∧ isDigitList l then some ((natOfDigits l : ℚ)) else none
  | some i =>
    let intPart := l.take i
    let fracPart := l.drop (i + 1)
    if (intPart ≠ [] ∨ fracPart ≠ []) ∧ isDigitList intPart ∧ isDigitList fracPart
        ∧ fracPart.findIdx? (fun c => c == '.') = none then
      some ((natOfDigits intPart : ℚ) + (natOfDigits fracPart : ℚ) / (10 ^ fracPart.length))
    else none

/-- Modelled Python `float(token)`: optional minus sign, then a plain
decimal literal (exponents, `inf`, `nan` are not modelled). -/
def parseDecimal (s : String) : Option ℚ :=
  match s.data with
  | '-' :: ds => (parseDecimalCore ds).map Neg.neg
  | ds => parseDecimalCore ds

/-- Split an option token at its first `=`, as `argparse` does for the
`--key=value` form. -/
def splitEq (s : String) : String × Option String :=
  match s.data.findIdx? (fun c => c == '=') with
  | some i => (⟨s.data.take i⟩, some ⟨s.data.drop (i + 1)⟩)
  | none => (s, none)

/-- Store one parsed option value; `none` when the key is unknown or the
value does not convert to the option's type. -/
def applyOpt (a : Args) (key val : String) : Option Args :=
  if key = "--text" then some { a with text := val }
  else if key = "--font" then some { a with font := val }
  else if key = "--depth" then (parseDecimal val).map (fun q => { a with depth := q })
  else if key = "--resolution" then (parseIntStr val).map (fun n => { a with resolution := n })
  else if key = "--bevel" then (parseDecimal val).map (fun q => { a with bevel := q })
  else if key = "--output" then some { a with output := some val }
  else none

/-- Consume the option tokens left-to-right; `.error` models `argparse`
raising `SystemExit` after printing usage. -/
def parseOpts : Args → List String → Except Unit Args
  | a, [] => .ok a
  | a, tok :: rest =>
    match splitEq tok with
    | (k, some v) =>
      match applyOpt a k v with
      | some a₁ => parseOpts a₁ rest
      | none => .error ()
    | (k, none) =>
      match rest with
      | [] => .error ()
      | v :: rest₂ =>
        match applyOpt a k v with
        | some a₁ => parseOpts a₁ rest₂
        | none => .error ()

/-- Nth-occurrence-free `list.index(x)` on the part that matters: the index
of the first occurrence (only evaluated when `x` is a member). -/
def indexOfStr : List String → String → ℕ
  | [], _ => 0
  | x :: xs, s => if x = s then 0 else indexOfStr xs s + 1

/-- Model of `parse_args()`: the script parses `sys.argv[sys.argv.index("--")+1:]`
when `"--"` occurs in `sys.argv` (everything before the separator belongs to
Blender) and the empty list otherwise. -/
def parse_args (sysArgv : List String) : Except Unit Args :=
  let argv := if "--" ∈ sysArgv then sysArgv.drop (indexOfStr sysArgv "--" + 1) else []
  parseOpts defaultArgs argv

/-! ## `create_text_mesh`, `get_default_output_path`, `main` -/

/-- Model of `create_text_mesh(text, font_path, extrude_depth, resolution,
bevel_depth)` (the source's defaults `0.2, 32, 0.01` are always overridden
by `main`): delete the default scene, add a text object at the origin, set
its body, font and parameters, convert it to a mesh, shade smooth and add an
edge-split modifier.  Returns `(text_obj, original_text)` and the trace.
All these operators are modelled as succeeding (main pre-checks the font
file's existence; operator failure would abort the script unmodelled). -/
def create_text_mesh (text font_path : String) (extrude_depth : ℚ) (resolution : ℤ)
    (bevel_depth : ℚ) : (TextObj × String) × List Event :=
  (({ location := (0, 0, 0) }, text),
   [.selectAll "SELECT", .deleteOp, .textAdd, .setBody text, .loadFontOp font_path, .setFont,
    .setExtrude extrude_depth, .setBevelDepth bevel_depth, .setBevelResolution resolution,
    .setActive, .convertOp "MESH", .shadeSmooth, .modifierAdd "EDGE_SPLIT"])

/-- Model of `get_default_output_path(text, file_ext='.obj')`: join the script
directory with `"output"`, create that directory (necessarily a non-empty
path, so the `makedirs` succeeds in the model), and return
`output_dir\text_timestamp.ext`. -/
def get_default_output_path (scriptDir timestamp text file_ext : String) :
    String × List Event :=
  let output_dir := pyJoin scriptDir "output"
  let filename := text ++ "_" ++ timestamp ++ file_ext
  (pyJoin output_dir filename, [.makedirsCall output_dir])

/-- Lift of `export_mesh`'s outcome to `main`'s: a value returned by
`export_mesh` is discarded (so `main` returns `None`), while an exception
escaping `export_mesh` propagates out of `main` unchanged. -/
def liftResult : Except PyExn Bool → Except PyExn Unit
  | .ok _ => .ok ()
  | .error e => .error e

/-- Model of `main`'s output-path resolution: `if args.output:` (false for
both `None` and the empty string) joins the script directory with the given
path, otherwise `get_default_output_path(original_text)` is used. -/
def resolve_output_path (scriptDir timestamp original_text : String)
    (output : Option String) : String × List Event :=
  match output with
  | some s =>
    if s = "" then get_default_output_path scriptDir timestamp original_text ".obj"
    else (pyJoin scriptDir s, [])
  | none => get_default_output_path scriptDir timestamp original_text ".obj"

/-- The world `main` runs in: the script directory, whether
`os.path.exists(font_path)` holds, the font's cmap (or a load failure), the
Unicode metadata of each character, the behaviour of `unicodedata.script`,
the centre of mass Blender assigns when setting the origin, the timestamp,
and the export-operator oracles. -/
structure Env where
  scriptDir : String
  fontExists : Bool
  fontLoad : Except PyExn (List ℕ)
  charMeta : Char → PyChar
  scriptFn : PyChar → Except PyExn String
  centerOfMass : ℚ × ℚ × ℚ
  timestamp : String
  exportEnv : ExportEnv

/-- Model of `main()`: parse the arguments (an `argparse` failure raises
`SystemExit` before any other effect), build the font path, return early
when the font file is missing, check font support and print warnings for
unsupported characters, create the text mesh, set the origin to the centre
of mass (Blender updates the object's location to it) and reset the location
to the origin, resolve the output path (`if args.output:` is false for both
`None` and the empty string), and call `export_mesh`, discarding its return
value; only an exception escaping `export_mesh` propagates out of `main`. -/
def main (env : Env) (sysArgv : List String) : Except PyExn Unit × List Event :=
  match parse_args sysArgv with
  | .error _ => (.error .systemExit, [])
  | .ok args =>
    let font_path := pyJoin env.scriptDir args.font
    if env.fontExists then
      let checkRes := check_font_support env.scriptFn env.fontLoad
        (args.text.data.map env.charMeta)
      let warnEvents : List Event :=
        if checkRes.1.1 then []
        else .printFontWarningHeader ::
          (checkRes.1.2.map Event.printCharWarning ++ [.printFontWarningFooter])
      let createRes := create_text_mesh args.text font_path args.depth args.resolution args.bevel
      let original_text := createRes.1.2
      let text_obj : TextObj := { createRes.1.1 with location := env.centerOfMass }
      let text_obj : TextObj := { text_obj with location := (0, 0, 0) }
      let pathRes := resolve_output_path env.scriptDir env.timestamp original_text args.output
      let exportRes := export_mesh env.exportEnv text_obj (some pathRes.1)
      (liftResult exportRes.1,
       checkRes.2 ++ warnEvents ++ createRes.2 ++
       [.originSet "ORIGIN_CENTER_OF_MASS", .setLocation 0 0 0] ++
       pathRes.2 ++ exportRes.2)
    else
      (.ok (), [.printFontNotFound font_path])

/-! ## Concrete data shared by several checks -/

/-- An export environment in which both export operators succeed. -/
def envAllOk : ExportEnv :=
  { objExportResult := .ok (), saveMainResult := .ok (), traceback := "tb" }

/-- The letter `b` with its Unicode metadata. -/
def charB : PyChar :=
  { code := 98, isspace := false, uname := "LATIN SMALL LETTER B", category := "Ll" }

/-! ## Claims -/

/-- Claim C1 (code bug): `check_font_support` is claimed to return, for a font that loads,
`fully_supported = true` iff every non-whitespace character is in the cmap,
with the second component listing the missing characters with name, category
and script.  The code cannot do this: `unicodedata.script` does not exist in
the standard-library `unicodedata` module, so the first unsupported
character raises `AttributeError`, the blanket `except` catches it, and the
function returns `(True, [])`.  At cmap `{97}` (`'a'` only) and text `"b"`
the code yields `(true, [])` (first conjunct), while the scan the docstring
describes — the same code with a working script lookup — yields `'b'` as
unsupported (second conjunct). -/
theorem c1_font_check_attribute_error :
    (check_font_support stdlib_script (.ok [97]) [charB]).1 = (true, []) ∧
    (check_font_support (fun _ => .ok "Latin") (.ok [97]) [charB]).1 =
      (false, [{ char := charB, uname := "LATIN SMALL LETTER B", category := "Ll",
                 script := "Latin" }]) :=
  ⟨rfl, rfl⟩

/-- Claim C7 (confirmed): for every font-load outcome and text, the pair returned by
`check_font_support` has first component `true` iff its second component is
the empty list — in the normal branch (`len(unsupported) == 0` is returned
next to the list itself) and in the exception branch, which returns
`(True, [])`. -/
theorem c7_supported_iff_no_unsupported (scriptFn : PyChar → Except PyExn String)
    (loadFont : Except PyExn (List ℕ)) (text : List PyChar) :
    ((check_font_support scriptFn loadFont text).1.1 = true ↔
      (check_font_support scriptFn loadFont text).1.2 = []) := by
  cases loadFont with
  | error e => simp [check_font_support]
  | ok cmap =>
    cases h : scanChars scriptFn cmap text with
    | error e => simp [check_font_support, h]
    | ok infos => simp [check_font_support, h, List.length_eq_zero]

/-- Claim C8 (confirmed): calling `export_mesh` with `output_path = None` reaches the
default-path branch, whose expression `get_default_output_path(original_text)`
evaluates the name `original_text`, which is bound neither in `export_mesh`
nor at module scope: the call raises `NameError` before any effect. -/
theorem c8_default_path_name_error (ee : ExportEnv) (obj : TextObj) :
    export_mesh ee obj none = (.error .nameError, []) := rfl

/-- Claim C9 (confirmed): when `sys.argv` does not contain the token `"--"`, `parse_args`
hands `argparse` the empty argument list, so every option takes its default:
text `"hello"`, font `".\fonts\hp.ttf"`, depth `0.2`, resolution `32`,
bevel `0.01`, output `None` — regardless of the other tokens. -/
theorem c9_defaults_without_separator (sysArgv : List String) (h : "--" ∉ sysArgv) :
    parse_args sysArgv =
      .ok { text := "hello", font := ".\\fonts\\hp.ttf", depth := 1/5, resolution := 32,
            bevel := 1/100, output := none } := by
  simp only [parse_args]
  rw [if_neg h]
  rfl

/-- Witness for C9 at a Blender-style command line without `"--"`; the
tokens after the script name are ignored. -/
theorem c9_defaults_witness :
    ("--" ∉ ["blender", "-b", "-P", "gen.py", "--text", "world"]) ∧
    parse_args ["blender", "-b", "-P", "gen.py", "--text", "world"] =
      .ok { text := "hello", font := ".\\fonts\\hp.ttf", depth := 1/5, resolution := 32,
            bevel := 1/100, output := none } :=
  ⟨by decide, c9_defaults_without_separator _ (by decide)⟩

/-- Claim C2, counterexample: the claim quantifies over every output path
whose lowercased extension is not `.obj`/`.blend`.  The path `"out\model"`
has the empty extension — also not `.obj`/`.blend` — yet `export_mesh` does
not print an unsupported-format error and return `False`: it appends
`.obj`, creates the output directory, and invokes the OBJ export operator,
returning `True`. -/
theorem c2_counterexample :
    pyLower (splitext "out\\model").2 = "" ∧ ("" : String) ∉ [".obj", ".blend"] ∧
    export_mesh envAllOk { location := (0, 0, 0) } (some "out\\model") =
      (.ok true, [.makedirsCall "out", .selectAll "DESELECT", .selectObj (0, 0, 0),
                  .setActive, .objExport "out\\model.obj" true false,
                  .print "Exported to: out\\model.obj"]) :=
  ⟨rfl, by decide, rfl⟩

/-- Claim C2 as amended: for every output path whose lowercased extension is
non-empty and neither `.obj` nor `.blend`, `export_mesh` prints the
unsupported-format error and returns `False`, with no export operator
invoked and no directory created (the trace holds the two prints only). -/
theorem c2_unsupported_ext (ee : ExportEnv) (obj : TextObj) (p : String)
    (h₁ : pyLower (splitext p).2 ≠ "")
    (h₂ : pyLower (splitext p).2 ∉ [".obj", ".blend"]) :
    export_mesh ee obj (some p) =
      (.ok false,
       [.print ("Error: Unsupported file format " ++ pyLower (splitext p).2),
        .print "Supported formats: .obj, .blend"]) := by
  simp only [export_mesh]
  rw [if_neg h₁, if_pos h₂]

/-- Witness for the amended C2 at the path `"model.stl"`. -/
theorem c2_unsupported_ext_witness :
    pyLower (splitext "model.stl").2 = ".stl" ∧
    export_mesh envAllOk { location := (0, 0, 0) } (some "model.stl") =
      (.ok false, [.print "Error: Unsupported file format .stl",
                   .print "Supported formats: .obj, .blend"]) := by
  refine ⟨rfl, ?_⟩
  rw [c2_unsupported_ext envAllOk { location := (0, 0, 0) } "model.stl" (by decide) (by decide)]
  rfl

/-- Claim C3, counterexample: the claim quantifies over every supported
output path.  `"model.obj"` is supported (extension `.obj`), but its
directory part is empty, and `os.makedirs("", exist_ok=True)` — executed
before the `try` block — raises `FileNotFoundError`: the call raises
instead of invoking the export operator and returning a boolean, although
the operator itself would have succeeded. -/
theorem c3_counterexample :
    pyLower (splitext "model.obj").2 = ".obj" ∧
    export_mesh envAllOk { location := (0, 0, 0) } (some "model.obj") =
      (.error .fileNotFoundError, [.makedirsCall ""]) :=
  ⟨rfl, rfl⟩

/-- Claim C3 as amended: for every output path whose effective extension is
`.obj` or `.blend` and whose effective directory part is non-empty,
`export_mesh` dispatches on the extension — `.obj` invokes the OBJ export
operator with `export_selected_objects=True, export_materials=False`,
`.blend` invokes the save-main-file operator — and returns `True` iff the
invoked operator completes without raising, returning `False` after
printing the error (and traceback) when it raises. -/
theorem c3_dispatch (ee : ExportEnv) (obj : TextObj) (p : String)
    (h₁ : effExt p = ".obj" ∨ effExt p = ".blend")
    (h₂ : dirname (effPath p) ≠ "") :
    export_mesh ee obj (some p) =
      (if effExt p = ".obj" then
        match ee.objExportResult with
        | .ok _ =>
          (.ok true,
           [.makedirsCall (dirname (effPath p)), .selectAll "DESELECT",
            .selectObj obj.location, .setActive, .objExport (effPath p) true false,
            .print ("Exported to: " ++ effPath p)])
        | .error m =>
          (.ok false,
           [.makedirsCall (dirname (effPath p)), .selectAll "DESELECT",
            .selectObj obj.location, .setActive, .objExport (effPath p) true false,
            .print ("Export failed: " ++ m), .print ee.traceback])
      else
        match ee.saveMainResult with
        | .ok _ =>
          (.ok true,
           [.makedirsCall (dirname (effPath p)), .selectAll "DESELECT",
            .selectObj obj.location, .setActive, .saveMainfile (effPath p),
            .print ("Exported to: " ++ effPath p)])
        | .error m =>
          (.ok false,
           [.makedirsCall (dirname (effPath p)), .selectAll "DESELECT",
            .selectObj obj.location, .setActive, .saveMainfile (effPath p),
            .print ("Export failed: " ++ m), .print ee.traceback])) := by
  by_cases hx : pyLower (splitext p).2 = ""
  · have h₂' : dirname (p ++ ".obj") ≠ "" := by simpa [effPath, hx] using h₂
    cases hop : ee.objExportResult with
    | ok u => simp [export_mesh, effExt, effPath, hx, makedirs, h₂', hop]
    | error m => simp [export_mesh, effExt, effPath, hx, makedirs, h₂', hop]
  · rcases h₁ with h | h
    · have hobj : pyLower (splitext p).2 = ".obj" := by simpa [effExt, hx] using h
      have h₂' : dirname p ≠ "" := by simpa [effPath, hx] using h₂
      cases hop : ee.objExportResult with
      | ok u => simp [export_mesh, effExt, effPath, hx, hobj, makedirs, h₂', hop]
      | error m => simp [export_mesh, effExt, effPath, hx, hobj, makedirs, h₂', hop]
    · have hbl : pyLower (splitext p).2 = ".blend" := by simpa [effExt, hx] using h
      have h₂' : dirname p ≠ "" := by simpa [effPath, hx] using h₂
      cases hop : ee.saveMainResult with
      | ok u => simp [export_mesh, effExt, effPath, hx, hbl, makedirs, h₂', hop]
      | error m => simp [export_mesh, effExt, effPath, hx, hbl, makedirs, h₂', hop]

/-- Witness for the amended C3 at `"out\m.obj"` with a succeeding operator. -/
theorem c3_dispatch_witness :
    dirname (effPath "out\\m.obj") ≠ "" ∧
    export_mesh envAllOk { location := (0, 0, 0) } (some "out\\m.obj") =
      (.ok true, [.makedirsCall "out", .selectAll "DESELECT", .selectObj (0, 0, 0),
                  .setActive, .objExport "out\\m.obj" true false,
                  .print "Exported to: out\\m.obj"]) := by
  refine ⟨by decide, ?_⟩
  rw [c3_dispatch envAllOk { location := (0, 0, 0) } "out\\m.obj" (Or.inl rfl) (by decide)]
  rfl

/-! ## C4: what happens to the export step's result -/

/-- Replace only the two export-operator oracles of an environment. -/
def setExportResults (env : Env) (r s : Except String Unit) : Env :=
  { env with exportEnv :=
      { objExportResult := r, saveMainResult := s, traceback := env.exportEnv.traceback } }

/-- Whether `export_mesh` raises, and which exception, is decided by the
path alone; the operator oracles (and the object) only influence the
returned boolean and the trace. -/
lemma export_mesh_liftResult_indep (ee₁ ee₂ : ExportEnv) (o₁ o₂ : TextObj)
    (p? : Option String) :
    liftResult (export_mesh ee₁ o₁ p?).1 = liftResult (export_mesh ee₂ o₂ p?).1 := by
  cases p? with
  | none => rfl
  | some p =>
    simp only [export_mesh]
    repeat' split
    all_goals rfl

/-- Claim C4 as amended: `export_mesh` itself converts operator exceptions
into a `False` return, but `main` invokes it as its final statement and
discards the boolean: `main`'s return value is unchanged under any
replacement of the export operators' outcomes, so the top-level flow never
observes or acts on the success/failure result of the export step. -/
theorem c4_result_discarded (env : Env) (sysArgv : List String)
    (r₁ s₁ r₂ s₂ : Except String Unit) :
    (main (setExportResults env r₁ s₁) sysArgv).1 =
      (main (setExportResults env r₂ s₂) sysArgv).1 := by
  cases hp : parse_args sysArgv with
  | error e => simp [main, hp]
  | ok args =>
    by_cases hf : env.fontExists = true
    · simp only [main, hp, setExportResults, hf, if_true]
      exact export_mesh_liftResult_indep _ _ _ _ _
    · simp [main, hp, setExportResults, hf]

/-- A run in which everything succeeds: the font exists, its cmap covers
the default text `"hello"`, and the OBJ operator succeeds. -/
def envSuccC : Env :=
  { scriptDir := "C:\\app", fontExists := true, fontLoad := .ok [104, 101, 108, 111],
    charMeta := fun c =>
      { code := c.toNat, isspace := decide (c = ' '), uname := "", category := "" },
    scriptFn := stdlib_script, centerOfMass := (1, 2, 3), timestamp := "20260101_000000",
    exportEnv := { objExportResult := .ok (), saveMainResult := .ok (), traceback := "tb" } }

/-- The same run except that the OBJ export operator raises. -/
def envFailC : Env :=
  { envSuccC with exportEnv :=
      { objExportResult := .error "boom", saveMainResult := .ok (), traceback := "tb" } }

/-- The command line of the two concrete runs. -/
def argvC : List String := ["blender", "--", "--output", "out\\m.obj"]

/-- The part of `main`'s trace that precedes the `export_mesh` call in both
concrete runs. -/
def mainPreC : List Event :=
  [.selectAll "SELECT", .deleteOp, .textAdd, .setBody "hello",
   .loadFontOp "C:\\app\\.\\fonts\\hp.ttf", .setFont, .setExtrude (1/5),
   .setBevelDepth (1/100), .setBevelResolution 32, .setActive, .convertOp "MESH",
   .shadeSmooth, .modifierAdd "EDGE_SPLIT", .originSet "ORIGIN_CENTER_OF_MASS",
   .setLocation 0 0 0]

/-- Claim C4, counterexample: in two runs identical except that the export
operator succeeds in one and raises in the other, the export step reports
`True` and `False` respectively, yet `main` returns the same value and
performs no action after the `export_mesh` call in either run — `main`
neither observes nor acts on the export step's result. -/
theorem c4_counterexample :
    (export_mesh envSuccC.exportEnv { location := (0, 0, 0) }
      (some "C:\\app\\out\\m.obj")).1 = .ok true ∧
    (export_mesh envFailC.exportEnv { location := (0, 0, 0) }
      (some "C:\\app\\out\\m.obj")).1 = .ok false ∧
    (main envSuccC argvC).1 = (main envFailC argvC).1 ∧
    (main envSuccC argvC).2 = mainPreC ++
      (export_mesh envSuccC.exportEnv { location := (0, 0, 0) }
        (some "C:\\app\\out\\m.obj")).2 ∧
    (main envFailC argvC).2 = mainPreC ++
      (export_mesh envFailC.exportEnv { location := (0, 0, 0) }
        (some "C:\\app\\out\\m.obj")).2 :=
  ⟨rfl, rfl, rfl, rfl, rfl⟩

/-! ## C5 and C6: operator ordering in `main`'s trace -/

/-- The operator invocations claim C5 orders: create the text object, set
the font, set the three parameters, convert, export. -/
def isKeyOp : Event → Bool
  | .textAdd => true
  | .setFont => true
  | .setExtrude _ => true
  | .setBevelDepth _ => true
  | .setBevelResolution _ => true
  | .convertOp _ => true
  | .objExport _ _ _ => true
  | .saveMainfile _ => true
  | _ => false

/-- The two export operators. -/
def isExportOp : Event → Bool
  | .objExport _ _ _ => true
  | .saveMainfile _ => true
  | _ => false

/-- The events claim C6 orders: conversion, the two centering steps, the
export-time selection (which carries the object's location) and the export
operators. -/
def isCenterOp : Event → Bool
  | .convertOp _ => true
  | .originSet _ => true
  | .setLocation _ _ _ => true
  | .selectObj _ => true
  | .objExport _ _ _ => true
  | .saveMainfile _ => true
  | _ => false

lemma filter_map_eq_nil {α : Type} (p : Event → Bool) (f : α → Event)
    (hp : ∀ a, p (f a) = false) (l : List α) : (l.map f).filter p = [] := by
  induction l with
  | nil => rfl
  | cons a t ih => simp [List.filter_cons, hp, ih]

/-- The trace of `check_font_support` is at most one warning print. -/
lemma check_trace_filter (p : Event → Bool) (hp : p .printFontCheckFailed = false)
    (scriptFn : PyChar → Except PyExn String) (loadFont : Except PyExn (List ℕ))
    (text : List PyChar) :
    ((check_font_support scriptFn loadFont text).2).filter p = [] := by
  cases loadFont with
  | error e => simp [check_font_support, List.filter_cons, hp]
  | ok cmap =>
    cases h : scanChars scriptFn cmap text with
    | error e => simp [check_font_support, h, List.filter_cons, hp]
    | ok infos => simp [check_font_support, h]

/-- The warning block of `main` consists of prints only. -/
lemma warn_filter (p : Event → Bool) (hh : p .printFontWarningHeader = false)
    (hc : ∀ i, p (.printCharWarning i) = false) (hf : p .printFontWarningFooter = false)
    (b : Bool) (l : List CharInfo) :
    ((if b then [] else
        .printFontWarningHeader :: (l.map Event.printCharWarning ++ [.printFontWarningFooter]))
      : List Event).filter p = [] := by
  cases b
  · simp [List.filter_cons, List.filter_append, hh, hf, filter_map_eq_nil p _ hc]
  · rfl

lemma create_filter_key (t fp : String) (d : ℚ) (r : ℤ) (b : ℚ) :
    ((create_text_mesh t fp d r b).2).filter isKeyOp =
      [.textAdd, .setFont, .setExtrude d, .setBevelDepth b, .setBevelResolution r,
       .convertOp "MESH"] := rfl

lemma create_filter_center (t fp : String) (d : ℚ) (r : ℤ) (b : ℚ) :
    ((create_text_mesh t fp d r b).2).filter isCenterOp = [.convertOp "MESH"] := rfl

/-- Output-path resolution emits at most a `makedirs` call. -/
lemma path_filter (p : Event → Bool) (hp : ∀ d, p (.makedirsCall d) = false)
    (sd ts txt : String) (o : Option String) :
    ((resolve_output_path sd ts txt o).2).filter p = [] := by
  cases o with
  | none => simp [resolve_output_path, get_default_output_path, List.filter_cons, hp]
  | some s =>
    by_cases h : s = "" <;>
      simp [resolve_output_path, get_default_output_path, h, List.filter_cons, hp]

/-- Among C5's key operators, the trace of `export_mesh` holds at most one
event, and it is an export operator. -/
lemma export_filter_key (ee : ExportEnv) (obj : TextObj) (p : String) :
    ((export_mesh ee obj (some p)).2).filter isKeyOp = [] ∨
    ∃ e, ((export_mesh ee obj (some p)).2).filter isKeyOp = [e] ∧ isExportOp e = true := by
  simp only [export_mesh]
  repeat' split
  all_goals first
    | exact Or.inl rfl
    | exact Or.inr ⟨_, rfl, rfl⟩

/-- Among C6's events, the trace of `export_mesh` is either empty or the
selection of the object (carrying its location) followed by one export
operator. -/
lemma export_filter_center (ee : ExportEnv) (obj : TextObj) (p : String) :
    ((export_mesh ee obj (some p)).2).filter isCenterOp = [] ∨
    ∃ e, ((export_mesh ee obj (some p)).2).filter isCenterOp = [.selectObj obj.location, e] ∧
      isExportOp e = true := by
  simp only [export_mesh]
  repeat' split
  all_goals first
    | exact Or.inl rfl
    | exact Or.inr ⟨_, rfl, rfl⟩

lemma key_filter_shape (d b : ℚ) (r : ℤ) (A B C D E F : List Event)
    (hA : A.filter isKeyOp = []) (hB : B.filter isKeyOp = [])
    (hC : C.filter isKeyOp =
      [.textAdd, .setFont, .setExtrude d, .setBevelDepth b, .setBevelResolution r,
       .convertOp "MESH"])
    (hD : D.filter isKeyOp = []) (hE : E.filter isKeyOp = [])
    (hF : F.filter isKeyOp = [] ∨ ∃ e, F.filter isKeyOp = [e] ∧ isExportOp e = true) :
    (A ++ B ++ C ++ D ++ E ++ F).filter isKeyOp = [] ∨
    ∃ (d' b' : ℚ) (r' : ℤ) (tail : List Event),
      (A ++ B ++ C ++ D ++ E ++ F).filter isKeyOp =
        [.textAdd, .setFont, .setExtrude d', .setBevelDepth b', .setBevelResolution r',
         .convertOp "MESH"] ++ tail ∧
      (tail = [] ∨ ∃ e, tail = [e] ∧ isExportOp e = true) :=
  Or.inr ⟨d, b, r, F.filter isKeyOp,
    by simp [List.filter_append, hA, hB, hC, hD, hE], hF⟩

lemma center_filter_shape (loc : ℚ × ℚ × ℚ) (A B C D E F : List Event)
    (hA : A.filter isCenterOp = []) (hB : B.filter isCenterOp = [])
    (hC : C.filter isCenterOp = [.convertOp "MESH"])
    (hD : D.filter isCenterOp = [.originSet "ORIGIN_CENTER_OF_MASS", .setLocation 0 0 0])
    (hE : E.filter isCenterOp = [])
    (hF : F.filter isCenterOp = [] ∨
      ∃ e, F.filter isCenterOp = [.selectObj loc, e] ∧ isExportOp e = true) :
    (A ++ B ++ C ++ D ++ E ++ F).filter isCenterOp = [] ∨
    ∃ tail, (A ++ B ++ C ++ D ++ E ++ F).filter isCenterOp =
        [.convertOp "MESH", .originSet "ORIGIN_CENTER_OF_MASS", .setLocation 0 0 0] ++ tail ∧
      (tail = [] ∨ ∃ e, tail = [.selectObj loc, e] ∧ isExportOp e = true) :=
  Or.inr ⟨F.filter isCenterOp,
    by simp [List.filter_append, hA, hB, hC, hD, hE], hF⟩

/-- Claim C5 (confirmed): in every run, restricted to the creation,
font/parameter, conversion and export operators, `main`'s trace is a prefix
of: create text object, set font, set extrude depth, set bevel depth, set
bevel resolution, convert to mesh, then at most one export operator — in
particular, an export operator is never invoked before the conversion
operator. -/
theorem c5_operator_order (env : Env) (sysArgv : List String) :
    ((main env sysArgv).2).filter isKeyOp = [] ∨
    ∃ (d b : ℚ) (r : ℤ) (tail : List Event),
      ((main env sysArgv).2).filter isKeyOp =
        [.textAdd, .setFont, .setExtrude d, .setBevelDepth b, .setBevelResolution r,
         .convertOp "MESH"] ++ tail ∧
      (tail = [] ∨ ∃ e, tail = [e] ∧ isExportOp e = true) := by
  cases hp : parse_args sysArgv with
  | error e => left; simp [main, hp]
  | ok args =>
    by_cases hf : env.fontExists = true
    · simp only [main, hp, hf, if_true]
      exact key_filter_shape args.depth args.bevel args.resolution _ _ _ _ _ _
        (check_trace_filter _ rfl _ _ _)
        (warn_filter _ rfl (fun i => rfl) rfl _ _)
        (create_filter_key _ _ _ _ _) rfl
        (path_filter _ (fun d => rfl) _ _ _ _)
        (export_filter_key _ _ _)
    · left; simp [main, hp, hf, isKeyOp]

/-- Claim C6 (confirmed): in every run, restricted to the conversion,
centering, selection and export events, `main`'s trace is a prefix of:
convert to mesh, set origin to centre of mass, set location to `(0,0,0)`,
then at most the export-time selection and one export operator — the
centering happens after conversion and before export, and the object handed
to the export step has location `(0, 0, 0)`. -/
theorem c6_centered_before_export (env : Env) (sysArgv : List String) :
    ((main env sysArgv).2).filter isCenterOp = [] ∨
    ∃ tail, ((main env sysArgv).2).filter isCenterOp =
        [.convertOp "MESH", .originSet "ORIGIN_CENTER_OF_MASS", .setLocation 0 0 0] ++ tail ∧
      (tail = [] ∨ ∃ e, tail = [.selectObj (0, 0, 0), e] ∧ isExportOp e = true) := by
  cases hp : parse_args sysArgv with
  | error e => left; simp [main, hp]
  | ok args =>
    by_cases hf : env.fontExists = true
    · simp only [main, hp, hf, if_true]
      exact center_filter_shape (0, 0, 0) _ _ _ _ _ _
        (check_trace_filter _ rfl _ _ _)
        (warn_filter _ rfl (fun i => rfl) rfl _ _)
        (create_filter_center _ _ _ _ _)
        rfl
        (path_filter _ (fun d => rfl) _ _ _ _)
        (export_filter_center _ _ _)
    · left; simp [main, hp, hf, isCenterOp]

end TextGen
